import Mathlib

/-!
Shallow embedding of the Orbya social-app backend (Express + Mongoose).

Users, posts, conversations and messages are modelled as Lean structures;
each MongoDB collection is a Lean list of records, and each REST handler
becomes a pure function from the stores (plus request parameters) to a
result together with the updated stores.  Mongo document ids are `Nat`.
-/

namespace Orbya

/-- A user record (src/models/User.js): the fields relevant to the follow
graph and the chat gate.  `following`/`followers` are the two mirrored
reference lists. -/
structure User where
  id : Nat
  username : String
  following : List Nat
  followers : List Nat
  deriving Repr, DecidableEq

/-- One entry of a post's embedded like list (src/unnamed/part_000):
a user reference plus a timestamp. -/
structure LikeEntry where
  user : Nat
  createdAt : Nat
  deriving Repr, DecidableEq

/-- A post record (src/unnamed/part_000): author, text, embedded like
list and the denormalized `likesCount`. -/
structure Post where
  id : Nat
  author : Nat
  text : String
  likes : List LikeEntry
  likesCount : Nat
  deriving Repr, DecidableEq

/-- A conversation record (src/models/Conversation.js): a list-typed
participants field, a last-message back-reference and the last-activity
timestamp. -/
structure Conversation where
  id : Nat
  participants : List Nat
  lastMessage : Option Nat
  lastActivity : Nat
  deriving Repr, DecidableEq

/-- The message-type tag (src/models/Message.js, enum text|image). -/
inductive MessageType where
  | text
  | image
  deriving Repr, DecidableEq

/-- A message record (src/models/Message.js): conversation reference,
sender, content, optional image, type tag, soft-delete flag with
deletion timestamp, and the `createdAt` timestamp added by mongoose. -/
structure Message where
  id : Nat
  conversation : Nat
  sender : Nat
  content : String
  image : Option String
  messageType : MessageType
  isDeleted : Bool
  deletedAt : Option Nat
  createdAt : Nat
  deriving Repr, DecidableEq

/-- `User.findById`: first user record with the given id. -/
def findUser (users : List User) (userId : Nat) : Option User :=
  users.find? (fun u => u.id == userId)

/-- `User.findOne({username})`: first user record with the given handle. -/
def findUserByName (users : List User) (username : String) : Option User :=
  users.find? (fun u => u.username == username)

/-- `checkMutualFollow` (src/unnamed/part_001, lines 40-50): looks up both
users; returns false if either is missing, otherwise true iff each user's
`following` list contains the other's id. -/
def checkMutualFollow (users : List User) (userId1 userId2 : Nat) : Bool :=
  match findUser users userId1, findUser users userId2 with
  | some user1, some user2 =>
      user1.following.contains userId2 && user2.following.contains userId1
  | _, _ => false

/-- `Conversation.findConversation` (src/models/Conversation.js, lines
26-31): `findOne({participants: {$all: [userId1, userId2]}})` — the first
conversation whose participants array contains both ids. -/
def findConversation (convs : List Conversation) (userId1 userId2 : Nat) :
    Option Conversation :=
  convs.find? (fun c =>
    c.participants.contains userId1 && c.participants.contains userId2)

/-- `Conversation.findById`. -/
def findConv (convs : List Conversation) (conversationId : Nat) :
    Option Conversation :=
  convs.find? (fun c => c.id == conversationId)

/-- `Message.findById`. -/
def findMessage (msgs : List Message) (messageId : Nat) : Option Message :=
  msgs.find? (fun m => m.id == messageId)

/-- Result of a conversation get-or-create request. -/
inductive ConvResult where
  | error (status : Nat) (msg : String)
  | ok (c : Conversation)
  deriving Repr, DecidableEq

/-- `POST /conversation/:username` (src/unnamed/part_001, lines 80-121):
resolve the target by username (404 if absent), check the mutual-follow
gate (403 if false), then look the conversation up and lazily create it
with participants `[currentUserId, target.id]`.  Returns the response
and the updated conversation store. -/
def getOrCreateConversation (users : List User) (convs : List Conversation)
    (currentUserId : Nat) (username : String) (newId now : Nat) :
    ConvResult × List Conversation :=
  match findUserByName users username with
  | none => (.error 404 "Usuario no encontrado", convs)
  | some targetUser =>
    if checkMutualFollow users currentUserId targetUser.id then
      match findConversation convs currentUserId targetUser.id with
      | some conversation => (.ok conversation, convs)
      | none =>
          let conversation : Conversation :=
            { id := newId
              participants := [currentUserId, targetUser.id]
              lastMessage := none
              lastActivity := now }
          (.ok conversation, convs ++ [conversation])
    else
      (.error 403 "No pueden chatear. Deben seguirse mutuamente.", convs)

/-- JS truthiness of the `content` field: `!content` holds when the field
is absent or the empty string. -/
def contentBlank : Option String → Bool
  | none => true
  | some s => s.isEmpty

/-- The express-validator rule on `POST /message`:
`body('content').optional().isLength({max: 1000})`. -/
def contentTooLong : Option String → Bool
  | none => false
  | some s => 1000 < s.length

/-- Result of a send-message request. -/
inductive SendResult where
  | error (status : Nat) (msg : String)
  | created (m : Message)
  deriving Repr, DecidableEq

/-- `POST /message` (src/unnamed/part_001, lines 168-246): reject
over-long content (400), then reject when neither content nor image is
supplied (400), then require the sender to be a participant of an
existing conversation (403), re-check the mutual-follow gate against the
other participant (403), and finally persist the message and update the
conversation's last-message pointer and last-activity timestamp.
Returns the response, the updated message store and the updated
conversation store. -/
def sendMessage (users : List User) (convs : List Conversation)
    (msgs : List Message) (currentUserId conversationId : Nat)
    (content : Option String) (image : Option String) (newId now : Nat) :
    SendResult × List Message × List Conversation :=
  if contentTooLong content then
    (.error 400 "Datos de entrada no válidos", msgs, convs)
  else if contentBlank content && image.isNone then
    (.error 400 "Debe proporcionar contenido o imagen", msgs, convs)
  else
    match findConv convs conversationId with
    | none => (.error 403 "No tienes acceso a esta conversación", msgs, convs)
    | some conversation =>
      if !conversation.participants.contains currentUserId then
        (.error 403 "No tienes acceso a esta conversación", msgs, convs)
      else
        match conversation.participants.find? (fun p => p != currentUserId) with
        | none => (.error 403 "Ya no pueden chatear. Verificar seguimiento mutuo.", msgs, convs)
        | some otherParticipant =>
          if checkMutualFollow users currentUserId otherParticipant then
            let message : Message :=
              { id := newId
                conversation := conversationId
                sender := currentUserId
                content := content.getD ""
                image := image
                messageType := if image.isSome then .image else .text
                isDeleted := false
                deletedAt := none
                createdAt := now }
            (.created message, msgs ++ [message],
              convs.map (fun c =>
                if c.id == conversationId then
                  { c with lastMessage := some newId, lastActivity := now }
                else c))
          else
            (.error 403 "Ya no pueden chatear. Verificar seguimiento mutuo.", msgs, convs)

/-- The sort key used by `GET /conversation/:conversationId/messages`:
`sort({createdAt: -1})`, newest first. -/
def newerFirst (a b : Message) : Prop :=
  b.createdAt ≤ a.createdAt

instance : DecidableRel newerFirst := fun a b =>
  inferInstanceAs (Decidable (b.createdAt ≤ a.createdAt))

instance : IsTotal Message newerFirst :=
  ⟨fun a b => Nat.le_total b.createdAt a.createdAt⟩

instance : IsTrans Message newerFirst :=
  ⟨fun _ _ _ hab hbc => Nat.le_trans hbc hab⟩

/-- `GET /conversation/:conversationId/messages` (src/unnamed/part_001,
lines 124-165): require the requester to be a participant (403
otherwise), fetch the conversation's non-deleted messages newest-first,
apply skip/limit pagination, and reverse the page into ascending
chronological order. -/
def listMessages (convs : List Conversation) (msgs : List Message)
    (currentUserId conversationId page limit : Nat) :
    Except (Nat × String) (List Message) :=
  match findConv convs conversationId with
  | none => .error (403, "No tienes acceso a esta conversación")
  | some conversation =>
    if !conversation.participants.contains currentUserId then
      .error (403, "No tienes acceso a esta conversación")
    else
      let filtered := msgs.filter (fun m =>
        m.conversation == conversationId && !m.isDeleted)
      let sorted := filtered.insertionSort newerFirst
      .ok (((sorted.drop ((page - 1) * limit)).take limit).reverse)

/-- Result of a delete-message request. -/
inductive DeleteResult where
  | error (status : Nat) (msg : String)
  | ok
  deriving Repr, DecidableEq

/-- `DELETE /message/:messageId` (src/unnamed/part_001, lines 249-279):
404 when the message is unknown, 403 when the requester is not the
sender; otherwise set the soft-delete flag and the deletion timestamp
and save the record back. -/
def deleteMessage (msgs : List Message) (messageId currentUserId now : Nat) :
    DeleteResult × List Message :=
  match findMessage msgs messageId with
  | none => (.error 404 "Mensaje no encontrado", msgs)
  | some message =>
    if message.sender != currentUserId then
      (.error 403 "Solo puedes eliminar tus propios mensajes", msgs)
    else
      (.ok, msgs.map (fun m =>
        if m.id == messageId then
          { m with isDeleted := true, deletedAt := some now }
        else m))

/-- `Post.findById`. -/
def findPost (posts : List Post) (postId : Nat) : Option Post :=
  posts.find? (fun p => p.id == postId)

/-- `postSchema.methods.hasUserLiked` (src/unnamed/part_000, lines
59-63): membership of the user in the embedded like list. -/
def hasUserLiked (p : Post) (userId : Nat) : Bool :=
  p.likes.any (fun l => l.user == userId)

/-- `postSchema.methods.addLike` (src/unnamed/part_000, lines 66-85):
returns `none` (false) when the like already exists, otherwise the post
with the like appended. -/
def addLike (p : Post) (userId now : Nat) : Option Post :=
  if p.likes.any (fun l => l.user == userId) then none
  else some { p with likes := p.likes ++ [{ user := userId, createdAt := now }] }

/-- `postSchema.methods.removeLike` (src/unnamed/part_000, lines 88-107):
filters the user's like out; `none` models the `false` return when
nothing was removed. -/
def removeLike (p : Post) (userId : Nat) : Option Post :=
  let remaining := p.likes.filter (fun l => l.user != userId)
  if remaining.length < p.likes.length then some { p with likes := remaining }
  else none

/-- `postSchema.pre('save')` (src/unnamed/part_000, lines 51-56): when
the like list was modified, recompute `likesCount` from its length. -/
def preSaveLikes (p : Post) : Post :=
  { p with likesCount := p.likes.length }

/-- Result of a like/unlike request. -/
inductive LikeResult where
  | error (status : Nat) (msg : String)
  | ok (likesCount : Nat)
  deriving Repr, DecidableEq

/-- `POST /:id/like` (src/unnamed/part_002, lines 291-347): 404 when the
post is unknown; 400 "Ya has dado like a este post" when the user
already liked it; otherwise append the like, run the pre-save hook and
persist. -/
def likePost (posts : List Post) (postId userId now : Nat) :
    LikeResult × List Post :=
  match findPost posts postId with
  | none => (.error 404 "Post no encontrado", posts)
  | some post =>
    if hasUserLiked post userId then
      (.error 400 "Ya has dado like a este post", posts)
    else
      match addLike post userId now with
      | none => (.error 400 "No se pudo añadir el like", posts)
      | some post1 =>
          let post2 := preSaveLikes post1
          (.ok post2.likesCount,
            posts.map (fun p => if p.id == postId then post2 else p))

/-- `DELETE /:id/like` (src/unnamed/part_002, lines 350-406): 404 when
the post is unknown; 400 "No has dado like a este post" when the user
has no like; otherwise filter the like out, run the pre-save hook and
persist. -/
def unlikePost (posts : List Post) (postId userId : Nat) :
    LikeResult × List Post :=
  match findPost posts postId with
  | none => (.error 404 "Post no encontrado", posts)
  | some post =>
    if !hasUserLiked post userId then
      (.error 400 "No has dado like a este post", posts)
    else
      match removeLike post userId with
      | none => (.error 400 "No se pudo quitar el like", posts)
      | some post1 =>
          let post2 := preSaveLikes post1
          (.ok post2.likesCount,
            posts.map (fun p => if p.id == postId then post2 else p))

/-- Result of a follow/unfollow request. -/
inductive FollowResult where
  | error (status : Nat) (msg : String)
  | ok (msg : String) (isFollowing : Bool)
  deriving Repr, DecidableEq

/-- `$addToSet`: append the element unless already present. -/
def addToSet (l : List Nat) (x : Nat) : List Nat :=
  if l.contains x then l else l ++ [x]

/-- `POST /follow/:username` (src/unnamed/part_002, lines 8-47): 404 when
the target is unknown, 400 on self-follow, 400 "Ya sigues a este
usuario" when already following; otherwise `$addToSet` the target into
the requester's `following` and the requester into the target's
`followers`. -/
def followUser (users : List User) (currentUserId : Nat) (username : String) :
    FollowResult × List User :=
  match findUserByName users username with
  | none => (.error 404 "Usuario no encontrado", users)
  | some userToFollow =>
    if userToFollow.id == currentUserId then
      (.error 400 "No puedes seguirte a ti mismo", users)
    else
      match findUser users currentUserId with
      | none => (.error 500 "Error del servidor", users)
      | some currentUser =>
        if currentUser.following.contains userToFollow.id then
          (.error 400 "Ya sigues a este usuario", users)
        else
          let users1 := users.map (fun u =>
            if u.id == currentUserId then
              { u with following := addToSet u.following userToFollow.id }
            else u)
          let users2 := users1.map (fun u =>
            if u.id == userToFollow.id then
              { u with followers := addToSet u.followers currentUserId }
            else u)
          (.ok "Usuario seguido exitosamente" true, users2)

/-- `DELETE /unfollow/:username` (src/unnamed/part_002, lines 50-78): 404
when the target is unknown; otherwise unconditionally `$pull` the target
from the requester's `following` and the requester from the target's
`followers`, and report success — there is no "not following" check. -/
def unfollowUser (users : List User) (currentUserId : Nat) (username : String) :
    FollowResult × List User :=
  match findUserByName users username with
  | none => (.error 404 "Usuario no encontrado", users)
  | some userToUnfollow =>
    let users1 := users.map (fun u =>
      if u.id == currentUserId then
        { u with following := u.following.filter (fun x => x != userToUnfollow.id) }
      else u)
    let users2 := users1.map (fun u =>
      if u.id == userToUnfollow.id then
        { u with followers := u.followers.filter (fun x => x != currentUserId) }
      else u)
    (.ok "Dejaste de seguir al usuario" false, users2)

/-- Steps 1-3 of `DELETE /delete-account` (src/routes/auth.js, lines
352-375): delete the user's own posts, `$pull` the user's likes out of
the remaining posts, then recompute `likesCount` — but only on the posts
matched by `{'likes.user': {$exists: true}}`, i.e. the posts whose like
list is still non-empty. -/
def deleteAccountLikes (posts : List Post) (userId : Nat) : List Post :=
  let posts1 := posts.filter (fun p => p.author != userId)
  let posts2 := posts1.map (fun p =>
    { p with likes := p.likes.filter (fun l => l.user != userId) })
  posts2.map (fun p =>
    if p.likes.isEmpty then p else { p with likesCount := p.likes.length })

/-- The redaction applied to a deleted user's own messages in step 5 of
`DELETE /delete-account`: soft-delete flag, deletion timestamp and the
content marker. -/
def redactMessage (now : Nat) (m : Message) : Message :=
  { m with isDeleted := true, deletedAt := some now,
           content := "[Usuario eliminado]" }

/-- One iteration of step 5 of `DELETE /delete-account` (src/routes/
auth.js, lines 390-412) for one conversation `c` of the deleted user:
mark the user's own messages in `c` as deleted with redacted content;
then, when `c` has exactly two participants, hard-delete all of `c`'s
messages and the conversation record, otherwise only pull the user from
`c`'s participant list. -/
def teardownStep (userId now : Nat)
    (s : List Conversation × List Message) (c : Conversation) :
    List Conversation × List Message :=
  let ms1 := s.2.map (fun m =>
    if m.conversation == c.id && m.sender == userId then
      redactMessage now m
    else m)
  if c.participants.length == 2 then
    (s.1.filter (fun c2 => c2.id != c.id),
     ms1.filter (fun m => m.conversation != c.id))
  else
    (s.1.map (fun c2 =>
      if c2.id == c.id then
        { c2 with participants := c2.participants.filter (fun p => p != userId) }
      else c2),
     ms1)

/-- Step 5 of `DELETE /delete-account`: iterate `teardownStep` over the
snapshot `Conversation.find({participants: userId})`. -/
def deleteAccountConversations (convs : List Conversation)
    (msgs : List Message) (userId now : Nat) :
    List Conversation × List Message :=
  (convs.filter (fun c => c.participants.contains userId)).foldl
    (teardownStep userId now) (convs, msgs)

/-- The spec's wording for the conversation-lookup contract: the
participant set of a stored conversation equals the unordered pair
`{a, b}`. -/
def participantSetEq (ps : List Nat) (a b : Nat) : Prop :=
  a ∈ ps ∧ b ∈ ps ∧ ∀ x ∈ ps, x = a ∨ x = b

instance (ps : List Nat) (a b : Nat) : Decidable (participantSetEq ps a b) :=
  inferInstanceAs (Decidable (a ∈ ps ∧ b ∈ ps ∧ ∀ x ∈ ps, x = a ∨ x = b))

/-- C1: the mutual-follow gate is symmetric — `checkMutualFollow users a b`
returns the same boolean as `checkMutualFollow users b a`, for every user
store and every pair of ids (in particular for every pair of stored
users). -/
theorem checkMutualFollow_symm (users : List User) (a b : Nat) :
    checkMutualFollow users a b = checkMutualFollow users b a := by
  cases h1 : findUser users a <;> cases h2 : findUser users b <;>
    simp [checkMutualFollow, h1, h2, Bool.and_comm]

/-- C3: when the target username resolves to a stored user but the
mutual-follow gate is false, `POST /conversation/:username` answers 403
PermissionDenied and the conversation store is returned unchanged — no
conversation record is created on the failure path. -/
theorem getOrCreateConversation_denied (users : List User)
    (convs : List Conversation) (currentUserId newId now : Nat)
    (username : String) (target : User)
    (htarget : findUserByName users username = some target)
    (hgate : checkMutualFollow users currentUserId target.id = false) :
    getOrCreateConversation users convs currentUserId username newId now =
      (.error 403 "No pueden chatear. Deben seguirse mutuamente.", convs) := by
  simp [getOrCreateConversation, htarget, hgate]

/-- C3 witness: carol (id 1) and dave (id 2) are stored but do not follow
each other; `POST /conversation/dave` by carol yields 403 and leaves the
(empty) conversation store unchanged. -/
theorem getOrCreateConversation_denied_witness :
    findUserByName
        [{ id := 1, username := "carol", following := [], followers := [] },
         { id := 2, username := "dave", following := [], followers := [] }] "dave" =
      some { id := 2, username := "dave", following := [], followers := [] } ∧
    checkMutualFollow
        [{ id := 1, username := "carol", following := [], followers := [] },
         { id := 2, username := "dave", following := [], followers := [] }] 1 2 = false ∧
    getOrCreateConversation
        [{ id := 1, username := "carol", following := [], followers := [] },
         { id := 2, username := "dave", following := [], followers := [] }]
        [] 1 "dave" 7 3 =
      (.error 403 "No pueden chatear. Deben seguirse mutuamente.", []) :=
  ⟨by decide, by decide,
    getOrCreateConversation_denied _ _ _ _ _ _
      { id := 2, username := "dave", following := [], followers := [] }
      (by decide) (by decide)⟩

/-- C4 counterexample: on a store holding one conversation with
participants `[1, 2, 3]`, the lookup for the pair (1, 2) returns that
conversation even though no stored conversation has participant set
equal to `{1, 2}` — the code's `$all` query checks containment, not set
equality, so the claim's iff fails on this store. -/
theorem findConversation_setEq_cex :
    (findConversation
        [{ id := 0, participants := [1, 2, 3], lastMessage := none,
           lastActivity := 0 }] 1 2).isSome = true ∧
    ¬ ∃ c ∈ [({ id := 0, participants := [1, 2, 3], lastMessage := none,
                lastActivity := 0 } : Conversation)],
        participantSetEq c.participants 1 2 := by
  decide

/-- C4 (amended): for every pair of ids and every conversation store, the
lookup used by get-or-create returns a conversation iff the store
contains a conversation whose participant list contains both ids, and
the lookup is independent of the order of the two ids. -/
theorem findConversation_contains_iff (convs : List Conversation)
    (a b : Nat) :
    ((findConversation convs a b).isSome = true ↔
      ∃ c ∈ convs, a ∈ c.participants ∧ b ∈ c.participants) ∧
    findConversation convs a b = findConversation convs b a := by
  constructor
  · simp [findConversation, List.find?_isSome]
  · induction convs with
    | nil => rfl
    | cons c t ih =>
        simp only [findConversation, List.find?]
        rw [Bool.and_comm]
        cases c.participants.contains b && c.participants.contains a
        · exact ih
        · rfl

/-- C5: account deletion leaves a stale denormalized counter.  A post by
user 2 whose only like came from user 1 ends, after user 1's account
deletion, with an empty like list but `likesCount` still 1, violating
the invariant that `likesCount` equals the length of the like list. -/
theorem deleteAccountLikes_stale_count :
    deleteAccountLikes
        [{ id := 5, author := 2, text := "hola",
           likes := [{ user := 1, createdAt := 0 }], likesCount := 1 }] 1 =
      [{ id := 5, author := 2, text := "hola", likes := [], likesCount := 1 }] ∧
    ¬ ∀ p ∈ deleteAccountLikes
        [{ id := 5, author := 2, text := "hola",
           likes := [{ user := 1, createdAt := 0 }], likesCount := 1 }] 1,
        p.likesCount = p.likes.length := by
  decide

/-- C6: a second like by a user already present in the post's like list
fails with the user-visible 400 "Ya has dado like a este post" and
returns the post store unchanged — likes and `likesCount` are
untouched. -/
theorem likePost_already_liked (posts : List Post) (postId userId now : Nat)
    (post : Post) (hfind : findPost posts postId = some post)
    (hliked : hasUserLiked post userId = true) :
    likePost posts postId userId now =
      (.error 400 "Ya has dado like a este post", posts) := by
  simp [likePost, hfind, hliked]

/-- C6 witness: user 1 already likes post 5; a second like request by
user 1 yields the 400 "already liked" error and an unchanged store. -/
theorem likePost_already_liked_witness :
    findPost
        [{ id := 5, author := 2, text := "hola",
           likes := [{ user := 1, createdAt := 0 }], likesCount := 1 }] 5 =
      some { id := 5, author := 2, text := "hola",
             likes := [{ user := 1, createdAt := 0 }], likesCount := 1 } ∧
    hasUserLiked
        { id := 5, author := 2, text := "hola",
          likes := [{ user := 1, createdAt := 0 }], likesCount := 1 } 1 = true ∧
    likePost
        [{ id := 5, author := 2, text := "hola",
           likes := [{ user := 1, createdAt := 0 }], likesCount := 1 }] 5 1 8 =
      (.error 400 "Ya has dado like a este post",
        [{ id := 5, author := 2, text := "hola",
           likes := [{ user := 1, createdAt := 0 }], likesCount := 1 }]) :=
  ⟨by decide, by decide,
    likePost_already_liked _ _ _ _
      { id := 5, author := 2, text := "hola",
        likes := [{ user := 1, createdAt := 0 }], likesCount := 1 }
      (by decide) (by decide)⟩

set_option maxRecDepth 40000 in
/-- C2 counterexample: a participant whose mutual follow was revoked.
Users 1 and 2 are the participants of conversation 10 but follow nobody;
user 1 sends a 1000-character text.  The validation passes, yet the
request is answered 403 and the message store stays empty — the message
is not persisted, refuting "validation passes and the message is
persisted" for every participant request. -/
theorem sendMessage_length1000_not_persisted_cex :
    (String.mk (List.replicate 1000 'a')).length = 1000 ∧
    ({ id := 10, participants := [1, 2], lastMessage := none,
       lastActivity := 0 } : Conversation).participants.contains 1 = true ∧
    sendMessage
        [{ id := 1, username := "alice", following := [], followers := [] },
         { id := 2, username := "bob", following := [], followers := [] }]
        [{ id := 10, participants := [1, 2], lastMessage := none,
           lastActivity := 0 }]
        [] 1 10 (some (String.mk (List.replicate 1000 'a'))) none 7 3 =
      (.error 403 "Ya no pueden chatear. Verificar seguimiento mutuo.", [],
        [{ id := 10, participants := [1, 2], lastMessage := none,
           lastActivity := 0 }]) := by
  refine ⟨?_, by decide, ?_⟩ <;> rfl

/-- C2 (amended): for every send-message request by a conversation
participant — both content and image absent fails with 400
ValidationError; content of length 1001 fails with 400 ValidationError;
content of length 1000 passes validation, and the message is persisted
provided the per-send mutual-follow gate against the other participant
also passes. -/
theorem sendMessage_validation (users : List User) (convs : List Conversation)
    (msgs : List Message) (currentUserId conversationId newId now : Nat)
    (content : Option String) (image : Option String)
    (conversation : Conversation)
    (hconv : findConv convs conversationId = some conversation)
    (hpart : conversation.participants.contains currentUserId = true) :
    (contentBlank content = true → image = none →
      sendMessage users convs msgs currentUserId conversationId content image
          newId now =
        (.error 400 "Debe proporcionar contenido o imagen", msgs, convs)) ∧
    (∀ c, content = some c → c.length = 1001 →
      sendMessage users convs msgs currentUserId conversationId content image
          newId now =
        (.error 400 "Datos de entrada no válidos", msgs, convs)) ∧
    (∀ c other, content = some c → c.length = 1000 →
      conversation.participants.find? (fun p => p != currentUserId) =
        some other →
      checkMutualFollow users currentUserId other = true →
      sendMessage users convs msgs currentUserId conversationId content image
          newId now =
        (.created
            { id := newId, conversation := conversationId,
              sender := currentUserId, content := c, image := image,
              messageType := if image.isSome then .image else .text,
              isDeleted := false, deletedAt := none, createdAt := now },
          msgs ++
            [{ id := newId, conversation := conversationId,
               sender := currentUserId, content := c, image := image,
               messageType := if image.isSome then .image else .text,
               isDeleted := false, deletedAt := none, createdAt := now }],
          convs.map (fun c2 =>
            if c2.id == conversationId then
              { c2 with lastMessage := some newId, lastActivity := now }
            else c2))) := by
  refine ⟨?_, ?_, ?_⟩
  · intro hblank himg
    have hlong : contentTooLong content = false := by
      cases content with
      | none => rfl
      | some s =>
          have : s = "" := (String.isEmpty_iff s).mp hblank
          subst this
          rfl
    simp [sendMessage, hlong, hblank, himg]
  · intro c hc hlen
    subst hc
    have hlong : contentTooLong (some c) = true := by
      simp [contentTooLong, hlen]
    simp [sendMessage, hlong]
  · intro c other hc hlen hother hgate
    subst hc
    have hlong : contentTooLong (some c) = false := by
      simp [contentTooLong, hlen]
    have hblank : contentBlank (some c) = false := by
      simp only [contentBlank]
      by_contra hne
      have hempty : c = "" :=
        (String.isEmpty_iff c).mp (by revert hne; cases c.isEmpty <;> simp)
      rw [hempty] at hlen
      exact absurd hlen (by decide)
    have hmem : currentUserId ∈ conversation.participants := by
      simpa using hpart
    simp [sendMessage, hlong, hblank, hconv, hpart, hmem, hother, hgate]

set_option maxRecDepth 40000 in
/-- C2 witness: alice (id 1) and bob (id 2) mutually follow and share
conversation 10; alice sends a 1000-character text, which is created and
appended to the message store while the conversation's last-message
pointer and last-activity timestamp are updated. -/
theorem sendMessage_validation_witness :
    findConv
        [{ id := 10, participants := [1, 2], lastMessage := none,
           lastActivity := 0 }] 10 =
      some { id := 10, participants := [1, 2], lastMessage := none,
             lastActivity := 0 } ∧
    ({ id := 10, participants := [1, 2], lastMessage := none,
       lastActivity := 0 } : Conversation).participants.contains 1 = true ∧
    checkMutualFollow
        [{ id := 1, username := "alice", following := [2], followers := [2] },
         { id := 2, username := "bob", following := [1], followers := [1] }]
        1 2 = true ∧
    sendMessage
        [{ id := 1, username := "alice", following := [2], followers := [2] },
         { id := 2, username := "bob", following := [1], followers := [1] }]
        [{ id := 10, participants := [1, 2], lastMessage := none,
           lastActivity := 0 }]
        [] 1 10 (some (String.mk (List.replicate 1000 'a'))) none 7 3 =
      (.created
          { id := 7, conversation := 10, sender := 1,
            content := String.mk (List.replicate 1000 'a'), image := none,
            messageType := .text, isDeleted := false, deletedAt := none,
            createdAt := 3 },
        [{ id := 7, conversation := 10, sender := 1,
           content := String.mk (List.replicate 1000 'a'), image := none,
           messageType := .text, isDeleted := false, deletedAt := none,
           createdAt := 3 }],
        [{ id := 10, participants := [1, 2], lastMessage := some 7,
           lastActivity := 3 }]) := by
  refine ⟨by decide, by decide, by decide, ?_⟩
  have h := (sendMessage_validation
    [{ id := 1, username := "alice", following := [2], followers := [2] },
     { id := 2, username := "bob", following := [1], followers := [1] }]
    [{ id := 10, participants := [1, 2], lastMessage := none,
       lastActivity := 0 }]
    [] 1 10 7 3 (some (String.mk (List.replicate 1000 'a'))) none
    { id := 10, participants := [1, 2], lastMessage := none,
      lastActivity := 0 }
    (by decide) (by decide)).2.2
    (String.mk (List.replicate 1000 'a')) 2 rfl (by rfl) (by decide) (by decide)
  simpa using h

/-- C8: deleting a stored message fails with 403 PermissionDenied and an
unchanged store when the requester is not the sender; when the requester
is the sender, the store update sets only the soft-delete flag and the
deletion timestamp — the record persists with its id, content, sender,
conversation and creation timestamp intact, and every other message is
untouched. -/
theorem deleteMessage_spec (msgs : List Message)
    (messageId currentUserId now : Nat) (message : Message)
    (hfind : findMessage msgs messageId = some message) :
    (message.sender ≠ currentUserId →
      deleteMessage msgs messageId currentUserId now =
        (.error 403 "Solo puedes eliminar tus propios mensajes", msgs)) ∧
    (message.sender = currentUserId →
      deleteMessage msgs messageId currentUserId now =
        (.ok, msgs.map (fun m =>
          if m.id == messageId then
            { m with isDeleted := true, deletedAt := some now }
          else m)) ∧
      (∃ m' ∈ (deleteMessage msgs messageId currentUserId now).2,
        m'.id = message.id ∧ m'.content = message.content ∧
        m'.sender = message.sender ∧ m'.conversation = message.conversation ∧
        m'.createdAt = message.createdAt ∧ m'.isDeleted = true ∧
        m'.deletedAt = some now) ∧
      (∀ m ∈ msgs, m.id ≠ messageId →
        m ∈ (deleteMessage msgs messageId currentUserId now).2)) := by
  have hmem : message ∈ msgs := List.mem_of_find?_eq_some hfind
  have hid : (message.id == messageId) = true :=
    List.find?_some (p := fun m : Message => m.id == messageId) hfind
  constructor
  · intro hne
    have hbne : (message.sender != currentUserId) = true := by
      simpa using hne
    simp [deleteMessage, hfind, hbne]
  · intro heq
    have hbne : (message.sender != currentUserId) = false := by
      simp [heq]
    have hstore : deleteMessage msgs messageId currentUserId now =
        (.ok, msgs.map (fun m =>
          if m.id == messageId then
            { m with isDeleted := true, deletedAt := some now }
          else m)) := by
      simp [deleteMessage, hfind, hbne]
    refine ⟨hstore, ?_, ?_⟩
    · refine ⟨{ message with isDeleted := true, deletedAt := some now },
        ?_, rfl, rfl, rfl, rfl, rfl, rfl, rfl⟩
      rw [hstore]
      exact List.mem_map.mpr ⟨message, hmem, by simp [hid]⟩
    · intro m hm hne
      rw [hstore]
      have hmid : (m.id == messageId) = false := by
        simpa using hne
      exact List.mem_map.mpr ⟨m, hm, by simp [hmid]⟩

/-- C8 witness: message 4 of conversation 10 was sent by user 1.  A
deletion request by user 2 yields 403 with the store unchanged, and a
deletion request by user 1 soft-deletes the record in place. -/
theorem deleteMessage_spec_witness :
    findMessage
        [{ id := 4, conversation := 10, sender := 1, content := "hi",
           image := none, messageType := .text, isDeleted := false,
           deletedAt := none, createdAt := 2 }] 4 =
      some { id := 4, conversation := 10, sender := 1, content := "hi",
             image := none, messageType := .text, isDeleted := false,
             deletedAt := none, createdAt := 2 } ∧
    deleteMessage
        [{ id := 4, conversation := 10, sender := 1, content := "hi",
           image := none, messageType := .text, isDeleted := false,
           deletedAt := none, createdAt := 2 }] 4 2 9 =
      (.error 403 "Solo puedes eliminar tus propios mensajes",
        [{ id := 4, conversation := 10, sender := 1, content := "hi",
           image := none, messageType := .text, isDeleted := false,
           deletedAt := none, createdAt := 2 }]) :=
  ⟨by decide,
    (deleteMessage_spec
      [{ id := 4, conversation := 10, sender := 1, content := "hi",
         image := none, messageType := .text, isDeleted := false,
         deletedAt := none, createdAt := 2 }] 4 2 9
      { id := 4, conversation := 10, sender := 1, content := "hi",
        image := none, messageType := .text, isDeleted := false,
        deletedAt := none, createdAt := 2 }
      (by decide)).1 (by decide)⟩

/-- C10: the follow/unfollow error asymmetry.  When the requester already
follows the stored target, `POST /follow/:username` answers 400 and
leaves the user store unchanged; when the requester does not follow the
target (and, the mirrored view, is not in the target's followers),
`DELETE /unfollow/:username` succeeds as a silent no-op with the user
store unchanged. -/
theorem follow_unfollow_asymmetry (users : List User)
    (currentUserId : Nat) (username : String) (target requester : User)
    (htarget : findUserByName users username = some target)
    (hreq : findUser users currentUserId = some requester)
    (hnodup : (users.map (fun u => u.id)).Nodup) :
    (target.id ∈ requester.following →
      (∃ m, (followUser users currentUserId username).1 = .error 400 m) ∧
      (followUser users currentUserId username).2 = users) ∧
    (target.id ∉ requester.following → currentUserId ∉ target.followers →
      unfollowUser users currentUserId username =
        (.ok "Dejaste de seguir al usuario" false, users)) := by
  have hreqmem : requester ∈ users := List.mem_of_find?_eq_some hreq
  have hreqid : requester.id = currentUserId := by
    simpa using (List.find?_some hreq)
  have htgtmem : target ∈ users := List.mem_of_find?_eq_some htarget
  constructor
  · intro hfol
    have hcont : requester.following.contains target.id = true := by
      simpa using hfol
    by_cases hself : target.id == currentUserId
    · refine ⟨⟨"No puedes seguirte a ti mismo", ?_⟩, ?_⟩ <;>
        simp [followUser, htarget, hself]
    · refine ⟨⟨"Ya sigues a este usuario", ?_⟩, ?_⟩ <;>
        simp [followUser, htarget, hreq, hself, hcont, hfol]
  · intro hfol hback
    have h1 : users.map (fun u =>
        if u.id == currentUserId then
          { u with following :=
              u.following.filter (fun x => x != target.id) }
        else u) = users := by
      apply List.map_congr_left ?_ |>.trans (List.map_id users)
      intro u hu
      by_cases hid : u.id == currentUserId
      · have : u = requester :=
          List.inj_on_of_nodup_map hnodup hu hreqmem
            (by simpa [hreqid] using hid)
        subst this
        simp only [hid, if_true, id]
        have : u.following.filter (fun x => x != target.id) =
            u.following := by
          rw [List.filter_eq_self]
          intro a ha
          simp only [bne_iff_ne, ne_eq, decide_eq_true_eq]
          intro hax
          exact hfol (hax ▸ ha)
        simp [this]
      · simp [hid, id]
    have h2 : users.map (fun u =>
        if u.id == target.id then
          { u with followers :=
              u.followers.filter (fun x => x != currentUserId) }
        else u) = users := by
      apply List.map_congr_left ?_ |>.trans (List.map_id users)
      intro u hu
      by_cases hid : u.id == target.id
      · have : u = target :=
          List.inj_on_of_nodup_map hnodup hu htgtmem (by simpa using hid)
        subst this
        simp only [hid, if_true, id]
        have : u.followers.filter (fun x => x != currentUserId) =
            u.followers := by
          rw [List.filter_eq_self]
          intro a ha
          simp only [bne_iff_ne, ne_eq, decide_eq_true_eq]
          intro hax
          exact hback (hax ▸ ha)
        simp [this]
      · simp [hid, id]
    simp only [unfollowUser, htarget, h1, h2]

/-- C10 witness: with rachel (id 1) already following tom (id 2), a
second follow request is a 400 error with the store unchanged; with
rita (id 3) not following ted (id 4), an unfollow request succeeds and
leaves the store unchanged. -/
theorem follow_unfollow_asymmetry_witness :
    ((∃ m, (followUser
        [{ id := 1, username := "rachel", following := [2], followers := [] },
         { id := 2, username := "tom", following := [], followers := [1] }]
        1 "tom").1 = .error 400 m) ∧
      (followUser
        [{ id := 1, username := "rachel", following := [2], followers := [] },
         { id := 2, username := "tom", following := [], followers := [1] }]
        1 "tom").2 =
        [{ id := 1, username := "rachel", following := [2], followers := [] },
         { id := 2, username := "tom", following := [], followers := [1] }]) ∧
    unfollowUser
        [{ id := 3, username := "rita", following := [], followers := [] },
         { id := 4, username := "ted", following := [], followers := [] }]
        3 "ted" =
      (.ok "Dejaste de seguir al usuario" false,
        [{ id := 3, username := "rita", following := [], followers := [] },
         { id := 4, username := "ted", following := [], followers := [] }]) :=
  ⟨(follow_unfollow_asymmetry
      [{ id := 1, username := "rachel", following := [2], followers := [] },
       { id := 2, username := "tom", following := [], followers := [1] }]
      1 "tom"
      { id := 2, username := "tom", following := [], followers := [1] }
      { id := 1, username := "rachel", following := [2], followers := [] }
      (by decide) (by decide) (by decide)).1 (by decide),
   (follow_unfollow_asymmetry
      [{ id := 3, username := "rita", following := [], followers := [] },
       { id := 4, username := "ted", following := [], followers := [] }]
      3 "ted"
      { id := 4, username := "ted", following := [], followers := [] }
      { id := 3, username := "rita", following := [], followers := [] }
      (by decide) (by decide) (by decide)).2 (by decide) (by decide)⟩

/-- C7: for a participant requesting page 1 with page size 50,
`listMessages` succeeds and returns exactly the 50 most recent
non-deleted messages of the conversation (all of them when fewer than 50
exist) in ascending chronological order: the output has length
`min 50 (number of non-deleted messages)`, contains only non-deleted
messages of the conversation, is sorted by `createdAt` ascending, and
every non-deleted message of the conversation left out is no newer than
every message returned. -/
theorem listMessages_page1 (convs : List Conversation) (msgs : List Message)
    (currentUserId conversationId : Nat) (conversation : Conversation)
    (hconv : findConv convs conversationId = some conversation)
    (hpart : conversation.participants.contains currentUserId = true) :
    ∃ out, listMessages convs msgs currentUserId conversationId 1 50 =
        .ok out ∧
      out.length = min 50 (msgs.filter (fun m =>
        m.conversation == conversationId && !m.isDeleted)).length ∧
      (∀ m ∈ out, m.conversation = conversationId ∧ m.isDeleted = false) ∧
      List.Sorted (fun a b : Message => a.createdAt ≤ b.createdAt) out ∧
      (∀ m' ∈ msgs, m'.conversation = conversationId → m'.isDeleted = false →
        m' ∉ out → ∀ m ∈ out, m'.createdAt ≤ m.createdAt) := by
  have hmem : currentUserId ∈ conversation.participants := by simpa using hpart
  set filtered := msgs.filter (fun m =>
    m.conversation == conversationId && !m.isDeleted) with hfiltered
  set sorted := filtered.insertionSort newerFirst with hsortedDef
  have hsorted : List.Sorted newerFirst sorted :=
    List.sorted_insertionSort newerFirst filtered
  have hperm : List.Perm sorted filtered := List.perm_insertionSort newerFirst filtered
  refine ⟨(sorted.take 50).reverse, ?_, ?_, ?_, ?_, ?_⟩
  · simp [listMessages, hconv, hpart, hmem, ← hfiltered, ← hsortedDef]
  · rw [List.length_reverse, List.length_take, hperm.length_eq]
  · intro m hm
    have hmf : m ∈ filtered :=
      hperm.mem_iff.mp ((List.take_sublist 50 sorted).subset
        (List.mem_reverse.mp hm))
    have := List.mem_filter.mp hmf
    simpa using this.2
  · rw [List.Sorted, List.pairwise_reverse]
    exact List.Pairwise.sublist (List.take_sublist 50 sorted) hsorted
  · intro m' hm' hconv' hdel' hnotout m hm
    have hm'f : m' ∈ filtered :=
      List.mem_filter.mpr ⟨hm', by simp [hconv', hdel']⟩
    have hm's : m' ∈ sorted := hperm.mem_iff.mpr hm'f
    have hm'take : m' ∉ sorted.take 50 := fun h =>
      hnotout (List.mem_reverse.mpr h)
    have hm'drop : m' ∈ sorted.drop 50 := by
      rcases List.mem_append.mp
          (by rw [List.take_append_drop]; exact hm's :
            m' ∈ sorted.take 50 ++ sorted.drop 50) with h | h
      · exact absurd h hm'take
      · exact h
    have hmtake : m ∈ sorted.take 50 := List.mem_reverse.mp hm
    have hcross := (List.pairwise_append.mp
      (by rw [List.take_append_drop]; exact hsorted :
        List.Pairwise newerFirst (sorted.take 50 ++ sorted.drop 50))).2.2
    exact hcross m hmtake m' hm'drop

/-- C7 witness: conversation 10 holds three messages, one of them
soft-deleted; the participant user 1 requests page 1 with page size 50
and receives the two non-deleted messages, oldest first, with the
deleted message absent. -/
theorem listMessages_page1_witness :
    findConv [{ id := 10, participants := [1, 2], lastMessage := none, lastActivity := 0 }] 10 =
      some { id := 10, participants := [1, 2], lastMessage := none, lastActivity := 0 } ∧
    ({ id := 10, participants := [1, 2], lastMessage := none, lastActivity := 0 } :
        Conversation).participants.contains 1 = true ∧
    ∃ out,
      listMessages [{ id := 10, participants := [1, 2], lastMessage := none, lastActivity := 0 }]
          [{ id := 4, conversation := 10, sender := 1, content := "one", image := none, messageType := .text, isDeleted := false, deletedAt := none, createdAt := 1 },
           { id := 5, conversation := 10, sender := 2, content := "two", image := none, messageType := .text, isDeleted := true, deletedAt := some 7, createdAt := 2 },
           { id := 6, conversation := 10, sender := 2, content := "three", image := none, messageType := .text, isDeleted := false, deletedAt := none, createdAt := 3 }]
          1 10 1 50 = .ok out ∧
      out.length = min 50
        ([({ id := 4, conversation := 10, sender := 1, content := "one", image := none, messageType := .text, isDeleted := false, deletedAt := none, createdAt := 1 } : Message),
          { id := 5, conversation := 10, sender := 2, content := "two", image := none, messageType := .text, isDeleted := true, deletedAt := some 7, createdAt := 2 },
          { id := 6, conversation := 10, sender := 2, content := "three", image := none, messageType := .text, isDeleted := false, deletedAt := none, createdAt := 3 }].filter
          (fun m => m.conversation == 10 && !m.isDeleted)).length ∧
      (∀ m ∈ out, m.conversation = 10 ∧ m.isDeleted = false) ∧
      List.Sorted (fun a b : Message => a.createdAt ≤ b.createdAt) out ∧
      (∀ m' ∈
          [({ id := 4, conversation := 10, sender := 1, content := "one", image := none, messageType := .text, isDeleted := false, deletedAt := none, createdAt := 1 } : Message),
           { id := 5, conversation := 10, sender := 2, content := "two", image := none, messageType := .text, isDeleted := true, deletedAt := some 7, createdAt := 2 },
           { id := 6, conversation := 10, sender := 2, content := "three", image := none, messageType := .text, isDeleted := false, deletedAt := none, createdAt := 3 }],
        m'.conversation = 10 → m'.isDeleted = false →
        m' ∉ out → ∀ m ∈ out, m'.createdAt ≤ m.createdAt) :=
  ⟨by decide, by decide,
    listMessages_page1 _ _ 1 10
      { id := 10, participants := [1, 2], lastMessage := none, lastActivity := 0 }
      (by decide) (by decide)⟩


/-- The per-message redaction map of `teardownStep` never changes a
message's conversation reference. -/
theorem teardown_redact_conversation (userId now cid : Nat) (m : Message) :
    ((if m.conversation == cid && m.sender == userId then
        redactMessage now m else m)).conversation = m.conversation := by
  by_cases h : (m.conversation == cid && m.sender == userId) = true <;>
    simp [h, redactMessage]

/-- The participant-pull map of `teardownStep` never changes a
conversation's id. -/
theorem teardown_pull_id (userId cid : Nat) (c2 : Conversation) :
    ((if c2.id == cid then
        { c2 with participants :=
            c2.participants.filter (fun p => p != userId) }
      else c2)).id = c2.id := by
  by_cases h : (c2.id == cid) = true <;> simp [h]

/-- A teardown step preserves the absence of conversation id `i` from
both stores. -/
theorem teardownStep_preserves_gone (userId now i : Nat)
    (s : List Conversation × List Message) (c : Conversation)
    (h1 : ∀ c2 ∈ s.1, c2.id ≠ i) (h2 : ∀ m ∈ s.2, m.conversation ≠ i) :
    (∀ c2 ∈ (teardownStep userId now s c).1, c2.id ≠ i) ∧
    (∀ m ∈ (teardownStep userId now s c).2, m.conversation ≠ i) := by
  have hms1 : ∀ m ∈ s.2.map (fun m =>
      if m.conversation == c.id && m.sender == userId then
        redactMessage now m else m), m.conversation ≠ i := by
    intro m hm
    obtain ⟨m0, hm0, rfl⟩ := List.mem_map.mp hm
    rw [teardown_redact_conversation]
    exact h2 m0 hm0
  simp only [teardownStep]
  by_cases hlen : (c.participants.length == 2) = true
  · simp only [hlen, if_true]
    exact ⟨fun c2 hc2 => h1 c2 (List.mem_filter.mp hc2).1,
      fun m hm => hms1 m (List.mem_filter.mp hm).1⟩
  · simp only [hlen, if_false, Bool.false_eq_true]
    refine ⟨?_, hms1⟩
    intro c2 hc2
    obtain ⟨c0, hc0, rfl⟩ := List.mem_map.mp hc2
    rw [teardown_pull_id]
    exact h1 c0 hc0

/-- Folding teardown steps preserves the absence of conversation id `i`
from both stores. -/
theorem foldl_teardown_gone (userId now i : Nat) :
    ∀ (l : List Conversation) (s : List Conversation × List Message),
      (∀ c2 ∈ s.1, c2.id ≠ i) → (∀ m ∈ s.2, m.conversation ≠ i) →
      (∀ c2 ∈ (l.foldl (teardownStep userId now) s).1, c2.id ≠ i) ∧
      (∀ m ∈ (l.foldl (teardownStep userId now) s).2, m.conversation ≠ i)
  | [], s, h1, h2 => ⟨h1, h2⟩
  | c :: t, s, h1, h2 => by
      have h := teardownStep_preserves_gone userId now i s c h1 h2
      exact foldl_teardown_gone userId now i t _ h.1 h.2

/-- The teardown step for a two-participant conversation removes its id
from the conversation store and all of its messages from the message
store. -/
theorem teardownStep_establishes_gone (userId now : Nat)
    (s : List Conversation × List Message) (c : Conversation)
    (hlen : (c.participants.length == 2) = true) :
    (∀ c2 ∈ (teardownStep userId now s c).1, c2.id ≠ c.id) ∧
    (∀ m ∈ (teardownStep userId now s c).2, m.conversation ≠ c.id) := by
  simp only [teardownStep, hlen, if_true]
  constructor
  · intro c2 hc2
    simpa using (List.mem_filter.mp hc2).2
  · intro m hm
    simpa using (List.mem_filter.mp hm).2

/-- A teardown step for a conversation with a different id keeps a
witness conversation (identified by id and participants) in the store. -/
theorem teardownStep_preserves_pulled (userId now i : Nat) (ps : List Nat)
    (s : List Conversation × List Message) (c : Conversation)
    (hne : c.id ≠ i)
    (h : ∃ c2 ∈ s.1, c2.id = i ∧ c2.participants = ps) :
    ∃ c2 ∈ (teardownStep userId now s c).1,
      c2.id = i ∧ c2.participants = ps := by
  obtain ⟨c2, hc2, hid, hps⟩ := h
  have hidne : (c2.id == c.id) = false := by
    simp only [beq_eq_false_iff_ne, ne_eq, hid]
    exact fun hh => hne hh.symm
  simp only [teardownStep]
  by_cases hlen : (c.participants.length == 2) = true
  · simp only [hlen, if_true]
    refine ⟨c2, List.mem_filter.mpr ⟨hc2, ?_⟩, hid, hps⟩
    simp only [bne_iff_ne, ne_eq, decide_eq_true_eq]
    intro hh
    rw [hh] at hid
    exact hne hid
  · simp only [hlen, if_false, Bool.false_eq_true]
    exact ⟨c2, List.mem_map.mpr ⟨c2, hc2, by simp [hidne]⟩, hid, hps⟩

/-- Folding teardown steps over conversations with different ids keeps a
witness conversation in the store. -/
theorem foldl_teardown_pulled (userId now i : Nat) (ps : List Nat) :
    ∀ (l : List Conversation), (∀ c ∈ l, c.id ≠ i) →
    ∀ (s : List Conversation × List Message),
      (∃ c2 ∈ s.1, c2.id = i ∧ c2.participants = ps) →
      ∃ c2 ∈ (l.foldl (teardownStep userId now) s).1,
        c2.id = i ∧ c2.participants = ps
  | [], _, _, h => h
  | c :: t, hl, s, h =>
      foldl_teardown_pulled userId now i ps t
        (fun c' hc' => hl c' (List.mem_cons_of_mem _ hc'))
        _
        (teardownStep_preserves_pulled userId now i ps s c
          (hl c (List.mem_cons_self _ _)) h)

/-- A teardown step keeps a message from another sender and another
conversation in the message store, unchanged. -/
theorem teardownStep_preserves_msg (userId now : Nat)
    (s : List Conversation × List Message) (c : Conversation) (m : Message)
    (hm : m ∈ s.2) (hsender : m.sender ≠ userId)
    (hconv : c.id ≠ m.conversation) :
    m ∈ (teardownStep userId now s c).2 := by
  have hb : (m.sender == userId) = false := by
    simpa using hsender
  have hm1 : m ∈ s.2.map (fun m2 =>
      if m2.conversation == c.id && m2.sender == userId then
        redactMessage now m2 else m2) :=
    List.mem_map.mpr ⟨m, hm, by simp [hb]⟩
  simp only [teardownStep]
  by_cases hlen : (c.participants.length == 2) = true
  · simp only [hlen, if_true]
    refine List.mem_filter.mpr ⟨hm1, ?_⟩
    simp only [bne_iff_ne, ne_eq, decide_eq_true_eq]
    exact fun hh => hconv hh.symm
  · simp only [hlen, if_false, Bool.false_eq_true]
    exact hm1

/-- Folding teardown steps over conversations with different ids keeps a
message from another sender in the message store. -/
theorem foldl_teardown_msg (userId now : Nat) (m : Message)
    (hsender : m.sender ≠ userId) :
    ∀ (l : List Conversation), (∀ c ∈ l, c.id ≠ m.conversation) →
    ∀ (s : List Conversation × List Message), m ∈ s.2 →
      m ∈ (l.foldl (teardownStep userId now) s).2
  | [], _, _, h => h
  | c :: t, hl, s, h =>
      foldl_teardown_msg userId now m hsender t
        (fun c' hc' => hl c' (List.mem_cons_of_mem _ hc'))
        _
        (teardownStep_preserves_msg userId now s c m h hsender
          (hl c (List.mem_cons_self _ _)))

/-- The teardown step of a conversation with more or fewer than two
participants pulls the user out of the witness conversation's
participant list. -/
theorem teardownStep_self_pull (userId now : Nat)
    (s : List Conversation × List Message) (c : Conversation)
    (hlen : (c.participants.length == 2) = false) (ps : List Nat)
    (h : ∃ c2 ∈ s.1, c2.id = c.id ∧ c2.participants = ps) :
    ∃ c2 ∈ (teardownStep userId now s c).1,
      c2.id = c.id ∧ c2.participants = ps.filter (fun p => p != userId) := by
  obtain ⟨c2, hc2, hid, hps⟩ := h
  have hideq : (c2.id == c.id) = true := by simp [hid]
  simp only [teardownStep, hlen, if_false, Bool.false_eq_true]
  exact ⟨{ c2 with participants :=
      c2.participants.filter (fun p => p != userId) },
    List.mem_map.mpr ⟨c2, hc2, by simp [hideq]⟩, hid, by rw [hps]⟩

/-- The teardown step of a conversation with more or fewer than two
participants keeps every message from another sender in the message
store. -/
theorem teardownStep_self_msg (userId now : Nat)
    (s : List Conversation × List Message) (c : Conversation)
    (hlen : (c.participants.length == 2) = false) (m : Message)
    (hm : m ∈ s.2) (hsender : m.sender ≠ userId) :
    m ∈ (teardownStep userId now s c).2 := by
  have hb : (m.sender == userId) = false := by
    simpa using hsender
  simp only [teardownStep, hlen, if_false, Bool.false_eq_true]
  exact List.mem_map.mpr ⟨m, hm, by simp [hb]⟩

/-- C9: the account-deletion conversation teardown.  For every stored
conversation C in which the deleted user participates: when C has
exactly two participants, no conversation with C's id and no message of
C survives the teardown (conversation and messages hard-deleted); for
any other participant count, a conversation with C's id survives with
exactly the user pulled from its participant list, and every message of
C from another sender remains in the message store. -/
theorem deleteAccount_conversation_teardown (convs : List Conversation)
    (msgs : List Message) (userId now : Nat) (C : Conversation)
    (hC : C ∈ convs) (hu : C.participants.contains userId = true)
    (hnodup : (convs.map (fun c => c.id)).Nodup) :
    (C.participants.length = 2 →
      (∀ c2 ∈ (deleteAccountConversations convs msgs userId now).1,
        c2.id ≠ C.id) ∧
      (∀ m ∈ (deleteAccountConversations convs msgs userId now).2,
        m.conversation ≠ C.id)) ∧
    (C.participants.length ≠ 2 →
      (∃ c2 ∈ (deleteAccountConversations convs msgs userId now).1,
        c2.id = C.id ∧
        c2.participants = C.participants.filter (fun p => p != userId)) ∧
      (∀ m ∈ msgs, m.conversation = C.id → m.sender ≠ userId →
        m ∈ (deleteAccountConversations convs msgs userId now).2)) := by
  have hCuc : C ∈ convs.filter (fun c => c.participants.contains userId) :=
    List.mem_filter.mpr ⟨hC, hu⟩
  obtain ⟨l1, l2, hsplit⟩ := List.append_of_mem hCuc
  have hucnodup : ((convs.filter (fun c => c.participants.contains userId)).map
      (fun c => c.id)).Nodup :=
    List.Nodup.sublist (List.Sublist.map _ (List.filter_sublist _)) hnodup
  rw [hsplit, List.map_append, List.map_cons] at hucnodup
  obtain ⟨_, hnd2, hdisj⟩ := List.nodup_append.mp hucnodup
  have hl1 : ∀ c ∈ l1, c.id ≠ C.id := by
    intro c hc heq
    exact hdisj (heq ▸ List.mem_map_of_mem _ hc) (List.mem_cons_self _ _)
  have hl2 : ∀ c ∈ l2, c.id ≠ C.id := by
    intro c hc heq
    exact (List.nodup_cons.mp hnd2).1 (heq ▸ List.mem_map_of_mem _ hc)
  have hfold : deleteAccountConversations convs msgs userId now =
      l2.foldl (teardownStep userId now)
        (teardownStep userId now
          (l1.foldl (teardownStep userId now) (convs, msgs)) C) := by
    rw [deleteAccountConversations, hsplit, List.foldl_append, List.foldl_cons]
  constructor
  · intro hlen2
    have hlenb : (C.participants.length == 2) = true := by simp [hlen2]
    rw [hfold]
    have hstep := teardownStep_establishes_gone userId now
      (l1.foldl (teardownStep userId now) (convs, msgs)) C hlenb
    exact foldl_teardown_gone userId now C.id l2 _ hstep.1 hstep.2
  · intro hlen2
    have hlenb : (C.participants.length == 2) = false := by simp [hlen2]
    constructor
    · rw [hfold]
      refine foldl_teardown_pulled userId now C.id _ l2 hl2 _ ?_
      refine teardownStep_self_pull userId now _ C hlenb C.participants ?_
      exact foldl_teardown_pulled userId now C.id C.participants l1 hl1
        (convs, msgs) ⟨C, hC, rfl, rfl⟩
    · intro m hm hmc hms
      rw [hfold]
      refine foldl_teardown_msg userId now m hms l2 ?_ _ ?_
      · intro c hc
        rw [hmc]
        exact hl2 c hc
      refine teardownStep_self_msg userId now _ C hlenb m ?_ hms
      refine foldl_teardown_msg userId now m hms l1 ?_ (convs, msgs) hm
      intro c hc
      rw [hmc]
      exact hl1 c hc

/-- C9 witness: user 1 is being deleted; conversation 0 with exactly the
two participants 1 and 2 holds one message from user 2.  After the
teardown no conversation with id 0 and no message of conversation 0
remains. -/
theorem deleteAccount_conversation_teardown_witness :
    ({ id := 0, participants := [1, 2], lastMessage := none,
       lastActivity := 0 } : Conversation) ∈
      [({ id := 0, participants := [1, 2], lastMessage := none,
          lastActivity := 0 } : Conversation)] ∧
    ({ id := 0, participants := [1, 2], lastMessage := none,
       lastActivity := 0 } : Conversation).participants.contains 1 = true ∧
    (({ id := 0, participants := [1, 2], lastMessage := none,
        lastActivity := 0 } : Conversation).participants.length = 2 →
      (∀ c2 ∈ (deleteAccountConversations
          [{ id := 0, participants := [1, 2], lastMessage := none,
             lastActivity := 0 }]
          [{ id := 3, conversation := 0, sender := 2, content := "hi",
             image := none, messageType := .text, isDeleted := false,
             deletedAt := none, createdAt := 1 }] 1 9).1,
        c2.id ≠ 0) ∧
      (∀ m ∈ (deleteAccountConversations
          [{ id := 0, participants := [1, 2], lastMessage := none,
             lastActivity := 0 }]
          [{ id := 3, conversation := 0, sender := 2, content := "hi",
             image := none, messageType := .text, isDeleted := false,
             deletedAt := none, createdAt := 1 }] 1 9).2,
        m.conversation ≠ 0)) :=
  ⟨by decide, by decide,
    (deleteAccount_conversation_teardown
      [{ id := 0, participants := [1, 2], lastMessage := none,
         lastActivity := 0 }]
      [{ id := 3, conversation := 0, sender := 2, content := "hi",
         image := none, messageType := .text, isDeleted := false,
         deletedAt := none, createdAt := 1 }] 1 9
      { id := 0, participants := [1, 2], lastMessage := none,
        lastActivity := 0 }
      (by decide) (by decide) (by decide)).1⟩

end Orbya
